import Mathlib

/-!
Verification of the spaced-repetition bot core (src/bot.py) against its
specification.  The dialog routing, quiz handling and the scheduler loop are
embedded from src/bot.py.  The codec (utils.py) and the task store operations
(models.py) are not part of the repository snapshot; they are modelled from
the specification, each such definition carrying a doc comment saying so.
-/

namespace SRBot

/-- Answer options, from the AnswerOption class in src/bot.py.  Each option is
a single-character tag; the tag characters are given by AnswerOption.tag. -/
inductive AnswerOption
  | REMEMBER
  | FORGOT
  | REMOVE
  | ADD_TASK
  | CANCEL
deriving DecidableEq, Repr

/-- The single-character tag of each answer option (bot.py lines 25-30:
REMEMBER = '1', FORGOT = '2', REMOVE = '3', ADD_TASK = '4', CANCEL = '5'). -/
def AnswerOption.tag : AnswerOption → Char
  | .REMEMBER => '1'
  | .FORGOT => '2'
  | .REMOVE => '3'
  | .ADD_TASK => '4'
  | .CANCEL => '5'

/-- Task status, from models.TaskStatus as used by src/bot.py. -/
inductive TaskStatus
  | ACTIVE
  | WAITING_ANSWER
  | DONE
deriving DecidableEq, Repr

/-- A task row: the schema of §6 of the spec
(id, chat_id, content, status, notification_count, next_notification_at,
created_at).  Content is a list of characters; timestamps are naturals. -/
structure Task where
  id : Nat
  chat_id : Int
  content : List Char
  status : TaskStatus
  notification_count : Nat
  next_notification_at : Nat
  created_at : Nat
deriving DecidableEq, Repr

/-- Errors of the error taxonomy (§7). -/
inductive StoreError
  | DuplicateActiveTask
  | InvalidTransition
deriving DecidableEq, Repr

/-- Codec error (§7): content cannot be encoded within the transport limit. -/
inductive CodecError
  | PayloadTooLong
deriving DecidableEq, Repr

/-! ## Codec (utils.py is absent from the snapshot; modelled from spec §4.1) -/

/-- The separator character of the two-field composition; it is not one of the
five tag characters. -/
def separator : Char := '|'

/-- UTF-8 byte length of a character list. -/
def utf8Len (s : List Char) : Nat := (s.map Char.utf8Size).sum

/-- The transport's hard maximum payload length: 64 bytes of encoded UTF-8
(spec §4.1). -/
def maxPayload : Nat := 64

/-- Modelled from the spec: utils.encode_callback_data is missing from the
snapshot.  The token encode composes (§4.1): the fixed two-field composition
answerTag + separator + content, except that CANCEL carries no content and its
token is just the tag. -/
def composedToken (a : AnswerOption) (content : List Char) : List Char :=
  match a with
  | .CANCEL => [AnswerOption.tag .CANCEL]
  | _ => a.tag :: separator :: content

/-- Modelled from the spec: utils.encode_callback_data is missing from the
snapshot.  Composes the token and fails with PayloadTooLong, rather than
truncating, when the token exceeds the 64-byte transport limit (§4.1). -/
def encode_callback_data (a : AnswerOption) (content : List Char) :
    Except CodecError (List Char) :=
  if maxPayload < utf8Len (composedToken a content) then .error .PayloadTooLong
  else .ok (composedToken a content)

/-- Modelled from the spec: utils.decode_callback_data is missing from the
snapshot.  Returns the content field: everything after the first separator,
and the empty string for a token with no separator (such as the bare CANCEL
tag, §4.1). -/
def decode_callback_data (t : List Char) : List Char :=
  match t.dropWhile (fun ch => ch != separator) with
  | [] => []
  | _ :: rest => rest

/-- Modelled from the spec: utils.decode_answer_option is missing from the
snapshot.  Reads the answer tag in front of the token; a token whose first
character is not one of the five enumerated tags yields none. -/
def decode_answer_option (t : List Char) : Option AnswerOption :=
  match t with
  | [] => none
  | c :: _ =>
    if c = '1' then some .REMEMBER
    else if c = '2' then some .FORGOT
    else if c = '3' then some .REMOVE
    else if c = '4' then some .ADD_TASK
    else if c = '5' then some .CANCEL
    else none

/-! ## Task store (models.py is absent from the snapshot; modelled from
spec §4.2) -/

/-- Scheduling parameters of the reference interval policy (§4.2). -/
structure SRConfig where
  baseInterval : Nat
  growthFactor : Nat
  learnedThreshold : Nat
deriving Repr

/-- The reference interval policy of §4.2:
interval = baseInterval * growthFactor ^ notificationCount. -/
def interval (cfg : SRConfig) (count : Nat) : Nat :=
  cfg.baseInterval * cfg.growthFactor ^ count

/-- A task store is the list of rows, in creation order. -/
abbrev Store := List Task

/-- Whether a task matches the natural key (chatId, content) and is not DONE. -/
def activeKey (chat : Int) (content : List Char) (t : Task) : Bool :=
  decide (t.chat_id = chat ∧ t.content = content ∧ t.status ≠ TaskStatus.DONE)

/-- Whether some non-DONE task with the given key already exists. -/
def hasActiveKey (store : Store) (chat : Int) (content : List Char) : Bool :=
  store.any (activeKey chat content)

/-- Number of non-DONE rows with the given key. -/
def activeKeyCount (store : Store) (chat : Int) (content : List Char) : Nat :=
  (store.filter (activeKey chat content)).length

/-- The fresh row inserted by createTask: status ACTIVE, notificationCount 0,
nextNotificationAt now (immediately eligible, §3). -/
def freshTask (chat : Int) (content : List Char) (now id : Nat) : Task :=
  { id := id, chat_id := chat, content := content, status := .ACTIVE,
    notification_count := 0, next_notification_at := now, created_at := now }

/-- Modelled from the spec: models.Task.create is missing from the snapshot.
createTask (§4.2) fails with DuplicateActiveTask if a non-DONE task with the
same (chatId, content) already exists; otherwise inserts with status ACTIVE. -/
def createTask (store : Store) (chat : Int) (content : List Char)
    (now id : Nat) : Except StoreError Store :=
  if hasActiveKey store chat content then .error .DuplicateActiveTask
  else .ok (store ++ [freshTask chat content now id])

/-- Modelled from the spec: models.Task.find_task is missing from the
snapshot.  findTask (§4.2) looks up the most recent non-DONE task matching the
key (the store is in creation order, so the most recent match is the last,
found first in the reversed list). -/
def find_task (store : Store) (chat : Int) (content : List Char) : Option Task :=
  store.reverse.find? (activeKey chat content)

/-- Modelled from the spec: models.Task.get_active_tasks is missing from the
snapshot.  dueTasks (§4.2): all tasks with status ACTIVE and
nextNotificationAt ≤ now. -/
def isDue (now : Nat) (t : Task) : Bool :=
  decide (t.status = TaskStatus.ACTIVE ∧ t.next_notification_at ≤ now)

/-- Modelled from the spec: models.Task.get_active_tasks is missing from the
snapshot; see isDue. -/
def get_active_tasks (store : Store) (now : Nat) : List Task :=
  store.filter (isDue now)

/-- Modelled from the spec: the guarded claim of §4.2 (markWaiting) is missing
from the snapshot together with models.py.  Atomically transitions
ACTIVE → WAITING_ANSWER; fails with InvalidTransition, changing nothing, if
the task is not currently ACTIVE. -/
def markWaiting (task : Task) : Except StoreError Task :=
  if task.status = TaskStatus.ACTIVE then
    .ok { task with status := .WAITING_ANSWER }
  else .error .InvalidTransition

/-- models.Task.set_status as called from src/bot.py lines 133 and 179. -/
def set_status (task : Task) (s : TaskStatus) : Task :=
  { task with status := s }

/-- Modelled from the spec: models.Task.update_notification_date is missing
from the snapshot.  recordAnswer (§4.2): on remember, increments
notificationCount and computes the next interval from the new count, except
that on reaching the learned threshold the task is instead marked DONE and
null is returned; on forgot, resets notificationCount to 0 and reschedules at
the base interval.  Returns the updated task and the next interval. -/
def update_notification_date (cfg : SRConfig) (now : Nat) (task : Task)
    (remember : Bool) : Task × Option Nat :=
  if remember then
    let c := task.notification_count + 1
    if cfg.learnedThreshold ≤ c then
      ({ task with status := .DONE, notification_count := c }, none)
    else
      ({ task with
          status := .ACTIVE
          notification_count := c
          next_notification_at := now + interval cfg c }, some (interval cfg c))
  else
    ({ task with
        status := .ACTIVE
        notification_count := 0
        next_notification_at := now + cfg.baseInterval }, some cfg.baseInterval)

/-- Replace the row with the given id by the given task. -/
def updateTask (store : Store) (id : Nat) (t : Task) : Store :=
  store.map fun u => if u.id = id then t else u

/-! ## Dialog controller (src/bot.py) -/

/-- The reply texts of bot.py's MessageTemplate, abstracted from their
wording: each constructor is one template, carrying its parameters. -/
inductive Reply
  | addConfirmation (content : List Char)
  | regularReply
  | errorMessage
  | termHasLearned (content : List Char)
  | rememberNext (secs : Nat)
  | forgotReset
deriving DecidableEq, Repr

/-- handle_task_creation_dialog (bot.py lines 75-94): on ADD_TASK, decodes
the content and creates the task, replying with the confirmation; on CANCEL,
replies with the regular reply.  A DuplicateActiveTask failure propagates out
of the handler: no reply is produced and the store is unchanged.  Returns the
new store and the reply, none when no reply is sent. -/
def handle_task_creation_dialog (store : Store) (chat_id : Int)
    (callback_data : List Char) (now id : Nat) : Store × Option Reply :=
  match decode_answer_option callback_data with
  | some .ADD_TASK =>
    let content := decode_callback_data callback_data
    match createTask store chat_id content now id with
    | .ok store2 => (store2, some (.addConfirmation content))
    | .error _ => (store, none)
  | some .CANCEL => (store, some .regularReply)
  | _ => (store, none)

/-- handle_quiz_dialog (bot.py lines 97-136): decodes the answer and content,
looks the task up, replies with the generic error message when it is not
found, and otherwise applies the REMEMBER / FORGOT / REMOVE transition and
picks the reply.  A routed answer outside those three would leave the reply
unassigned (none). -/
def handle_quiz_dialog (cfg : SRConfig) (now : Nat) (store : Store)
    (chat_id : Int) (callback_data : List Char) : Store × Option Reply :=
  let answer := decode_answer_option callback_data
  let content := decode_callback_data callback_data
  match find_task store chat_id content with
  | none => (store, some .errorMessage)
  | some task =>
    match answer with
    | some .REMEMBER =>
      let r := update_notification_date cfg now task true
      (updateTask store task.id r.1,
       some (match r.2 with
             | some secs => .rememberNext secs
             | none => .termHasLearned content))
    | some .FORGOT =>
      (updateTask store task.id (update_notification_date cfg now task false).1,
       some .forgotReset)
    | some .REMOVE =>
      (updateTask store task.id (set_status task .DONE), some .regularReply)
    | _ => (store, none)

/-- callback_handler (bot.py lines 139-155): routes ADD_TASK and CANCEL to the
task-creation dialog, REMEMBER, FORGOT and REMOVE to the quiz dialog, and
dispatches no handler otherwise. -/
def callback_handler (cfg : SRConfig) (now id : Nat) (store : Store)
    (chat_id : Int) (callback_data : List Char) : Store × Option Reply :=
  match decode_answer_option callback_data with
  | some .ADD_TASK => handle_task_creation_dialog store chat_id callback_data now id
  | some .CANCEL => handle_task_creation_dialog store chat_id callback_data now id
  | some .REMEMBER => handle_quiz_dialog cfg now store chat_id callback_data
  | some .FORGOT => handle_quiz_dialog cfg now store chat_id callback_data
  | some .REMOVE => handle_quiz_dialog cfg now store chat_id callback_data
  | none => (store, none)

/-! ## Scheduler (src/bot.py lines 162-200) -/

/-- A dispatched notification: the target chat and the question content. -/
structure Notification where
  chat_id : Int
  content : List Char
deriving DecidableEq, Repr

/-- remind_task_to_user (bot.py lines 162-184) composed with the guarded
markWaiting claim: the task is claimed first, and only on success is the
question sent, with the status already WAITING_ANSWER; on InvalidTransition
the handler skips silently and the task is unchanged. -/
def remind_task_to_user (task : Task) : Task × Option Notification :=
  match markWaiting task with
  | .ok t2 => (t2, some { chat_id := t2.chat_id, content := t2.content })
  | .error _ => (task, none)

/-- One iteration of task_watcher (bot.py lines 196-200): every due task is
claimed and reminded.  Returns the new store and the ids of the tasks for
which a notification was dispatched. -/
def tick (store : Store) (now : Nat) : Store × List Nat :=
  (store.map (fun t => if isDue now t then (remind_task_to_user t).1 else t),
   ((store.filter (isDue now)).filter
      (fun t => (remind_task_to_user t).2.isSome)).map Task.id)

/-- The task after a sequence of REMEMBER answers, one per listed time. -/
def runRemembers (cfg : SRConfig) : List Nat → Task → Task
  | [], t => t
  | now :: rest, t => runRemembers cfg rest (update_notification_date cfg now t true).1

/-! ## Theorems -/

/-- A task found by find_task is a stored row and is not DONE. -/
theorem find_task_mem (store : Store) (chat : Int) (content : List Char)
    (u : Task) (h : find_task store chat content = some u) :
    u ∈ store ∧ u.status ≠ TaskStatus.DONE := by
  unfold find_task at h
  have hm := List.mem_of_find?_eq_some h
  have hp := List.find?_some h
  rw [List.mem_reverse] at hm
  simp [activeKey] at hp
  exact ⟨hm, hp.2.2⟩

/-- A stored row whose id differs from the updated id survives updateTask
unchanged. -/
theorem mem_updateTask (store : Store) (task : Task) (tid : Nat) (t2 : Task)
    (hmem : task ∈ store) (hne : task.id ≠ tid) :
    task ∈ updateTask store tid t2 :=
  List.mem_map.mpr ⟨task, hmem, by simp [hne]⟩

/-- C1: for every task and every REMEMBER answer, the call increments
notificationCount; below the learned threshold it returns the interval
baseInterval * growthFactor ^ notificationCount, reschedules at now plus that
interval, keeps the task ACTIVE, and the interval is strictly greater than the
previous one, so successive nextNotificationAt - now values strictly grow;
once notificationCount reaches learnedThreshold the task is marked DONE and
null is returned. -/
theorem interval_growth_policy (cfg : SRConfig) (now : Nat) (task : Task)
    (hb : 0 < cfg.baseInterval) (hg : 1 < cfg.growthFactor) :
    (update_notification_date cfg now task true).1.notification_count =
        task.notification_count + 1
    ∧ (task.notification_count + 1 < cfg.learnedThreshold →
        (update_notification_date cfg now task true).2 =
            some (interval cfg (task.notification_count + 1))
        ∧ (update_notification_date cfg now task true).1.next_notification_at =
            now + interval cfg (task.notification_count + 1)
        ∧ (update_notification_date cfg now task true).1.status = .ACTIVE
        ∧ interval cfg task.notification_count <
            interval cfg (task.notification_count + 1))
    ∧ (cfg.learnedThreshold ≤ task.notification_count + 1 →
        (update_notification_date cfg now task true).1.status = .DONE
        ∧ (update_notification_date cfg now task true).2 = none) := by
  have hmono : interval cfg task.notification_count <
      interval cfg (task.notification_count + 1) :=
    mul_lt_mul_of_pos_left
      (pow_lt_pow_right₀ hg (Nat.lt_succ_self task.notification_count)) hb
  refine ⟨?_, fun hlt => ?_, fun hge => ?_⟩
  · by_cases hc : cfg.learnedThreshold ≤ task.notification_count + 1 <;>
      simp [update_notification_date, hc]
  · have hnot : ¬ cfg.learnedThreshold ≤ task.notification_count + 1 :=
      Nat.not_le.mpr hlt
    simp [update_notification_date, hnot, hmono]
  · simp [update_notification_date, hge]

/-- Witness for interval_growth_policy at a concrete configuration and task:
the first REMEMBER after two confirmations yields interval 40 = 5 * 2 ^ 3,
strictly above 20 = 5 * 2 ^ 2, and a task one step from the threshold is
marked DONE with no interval. -/
theorem interval_growth_policy_witness :
    (update_notification_date ⟨5, 2, 10⟩ 100 (freshTask 42 ['o'] 0 7) true).2 =
        some 10
    ∧ (update_notification_date ⟨5, 2, 10⟩ 100
        { freshTask 42 ['o'] 0 7 with notification_count := 9 } true).1.status =
        TaskStatus.DONE := by
  refine ⟨?_, ?_⟩
  · have h :=
      (interval_growth_policy ⟨5, 2, 10⟩ 100 (freshTask 42 ['o'] 0 7)
        (by decide) (by decide)).2.1 (by decide)
    exact h.1.trans (by decide)
  · exact ((interval_growth_policy ⟨5, 2, 10⟩ 100
      { freshTask 42 ['o'] 0 7 with notification_count := 9 }
      (by decide) (by decide)).2.2 (by decide)).1

/-- C6: a FORGOT answer after any sequence of N REMEMBER answers resets
notificationCount to 0, reschedules at exactly baseInterval from now, sets the
status to ACTIVE, and returns baseInterval, regardless of N. -/
theorem forgot_resets_progress (cfg : SRConfig) (times : List Nat) (now : Nat)
    (task : Task) :
    update_notification_date cfg now (runRemembers cfg times task) false =
      ({ runRemembers cfg times task with
          status := .ACTIVE
          notification_count := 0
          next_notification_at := now + cfg.baseInterval },
       some cfg.baseInterval) := by
  simp [update_notification_date]

/-- C2 counterexample: the round-trip law fails as stated on the CANCEL
option.  encode accepts CANCEL with nonempty content (the token, just the
bare tag, is well within the limit), but decode of that token is the empty
string, not the content. -/
theorem codec_roundtrip_counterexample :
    ¬ (∀ (a : AnswerOption) (c t : List Char),
        encode_callback_data a c = .ok t →
        decode_callback_data t = c ∧ decode_answer_option t = some a) := by
  intro h
  have h2 := (h .CANCEL ['x'] ['5'] rfl).1
  exact absurd h2 (by decide)

/-- C2 amended: for every answerOption and every content that encode accepts,
answerOf of the token is the answerOption; decode of the token is the content
for the four content-carrying options, while for CANCEL, whose token carries
no content, decode returns the empty string. -/
theorem codec_roundtrip (a : AnswerOption) (c t : List Char)
    (h : encode_callback_data a c = .ok t) :
    decode_answer_option t = some a
    ∧ (a ≠ .CANCEL → decode_callback_data t = c)
    ∧ (a = .CANCEL → decode_callback_data t = []) := by
  have ht : t = composedToken a c := by
    unfold encode_callback_data at h
    split at h
    · exact absurd h (by simp)
    · exact (Except.ok.injEq _ _ ▸ h).symm
  subst ht
  cases a <;>
    simp [composedToken, AnswerOption.tag, decode_callback_data,
      decode_answer_option, separator, List.dropWhile]

/-- Witness for codec_roundtrip on the REMEMBER tag with content "hi". -/
theorem codec_roundtrip_witness :
    decode_answer_option ['1', '|', 'h', 'i'] = some AnswerOption.REMEMBER
    ∧ decode_callback_data ['1', '|', 'h', 'i'] = ['h', 'i'] := by
  have h := codec_roundtrip .REMEMBER ['h', 'i'] ['1', '|', 'h', 'i'] rfl
  exact ⟨h.1, h.2.1 (by decide)⟩

/-- C7: encode fails with PayloadTooLong exactly when the composed token
exceeds 64 bytes of UTF-8, and otherwise returns the composed token itself,
never a truncation; for the content-carrying options, whose tag and separator
take one byte each, failure happens exactly when the content exceeds 62
bytes. -/
theorem encode_length_law (a : AnswerOption) (c : List Char) :
    (encode_callback_data a c = .error .PayloadTooLong ↔
      64 < utf8Len (composedToken a c))
    ∧ (∀ t, encode_callback_data a c = .ok t → t = composedToken a c)
    ∧ (a ≠ .CANCEL →
        (encode_callback_data a c = .error .PayloadTooLong ↔ 62 < utf8Len c)) := by
  refine ⟨?_, fun t ht => ?_, fun hnc => ?_⟩
  · unfold encode_callback_data
    split <;> rename_i hcond <;> simp [maxPayload] at hcond ⊢ <;> omega
  · unfold encode_callback_data at ht
    split at ht
    · exact absurd ht (by simp)
    · exact ((Except.ok.injEq _ _).mp ht).symm
  · have hlen : utf8Len (composedToken a c) = 2 + utf8Len c := by
      cases a <;>
        simp_all [composedToken, AnswerOption.tag, separator, utf8Len,
          Char.utf8Size] <;> omega
    unfold encode_callback_data
    split <;> rename_i hcond <;>
      simp [maxPayload, hlen] at hcond ⊢ <;> omega

/-- Witness for encode_length_law: a 63-byte content is rejected on a
content-carrying tag, and an accepted token equals the composed token. -/
theorem encode_length_law_witness :
    encode_callback_data .ADD_TASK (List.replicate 63 'a') =
        .error CodecError.PayloadTooLong
    ∧ ['1', '|', 'h', 'i'] = composedToken .REMEMBER ['h', 'i'] := by
  refine ⟨?_, ?_⟩
  · exact ((encode_length_law .ADD_TASK (List.replicate 63 'a')).2.2
      (by decide)).mpr (by decide)
  · exact (encode_length_law .REMEMBER ['h', 'i']).2.1 ['1', '|', 'h', 'i'] rfl

/-- C3: markWaiting transitions ACTIVE to WAITING_ANSWER and fails with
InvalidTransition whenever the task is not ACTIVE, in which case the reminder
handler leaves the task unchanged and dispatches nothing; on an ACTIVE task
the claim succeeds, a second attempt on the claimed task observes
InvalidTransition (so of two racing callers exactly one succeeds), and the
notification is dispatched. -/
theorem markWaiting_guarded (task : Task) :
    (task.status ≠ .ACTIVE →
        markWaiting task = .error .InvalidTransition
        ∧ remind_task_to_user task = (task, none))
    ∧ (task.status = .ACTIVE →
        markWaiting task = .ok (set_status task .WAITING_ANSWER)
        ∧ markWaiting (set_status task .WAITING_ANSWER) =
            .error .InvalidTransition
        ∧ (remind_task_to_user task).1 = set_status task .WAITING_ANSWER
        ∧ (remind_task_to_user task).2.isSome) := by
  constructor
  · intro h
    simp [markWaiting, remind_task_to_user, h]
  · intro h
    simp [markWaiting, remind_task_to_user, set_status, h]

/-- Witness for markWaiting_guarded: a fresh ACTIVE task is claimed and a
second claim fails; a DONE task cannot be claimed. -/
theorem markWaiting_guarded_witness :
    markWaiting (freshTask 42 ['o'] 0 7) =
        .ok (set_status (freshTask 42 ['o'] 0 7) .WAITING_ANSWER)
    ∧ markWaiting (set_status (freshTask 42 ['o'] 0 7) .DONE) =
        .error StoreError.InvalidTransition := by
  refine ⟨?_, ?_⟩
  · exact ((markWaiting_guarded (freshTask 42 ['o'] 0 7)).2 rfl).1
  · exact ((markWaiting_guarded (set_status (freshTask 42 ['o'] 0 7) .DONE)).1
      (by decide)).1

/-- C5: createTask fails with DuplicateActiveTask when a non-DONE task with
the same (chatId, content) key exists, and otherwise appends a fresh ACTIVE
row; creating twice with the same key leaves exactly one non-DONE row for the
key and the second call signals DuplicateActiveTask. -/
theorem createTask_duplicate_idempotence (store : Store) (chat : Int)
    (content : List Char) (now id now2 id2 : Nat) :
    (hasActiveKey store chat content = true →
        createTask store chat content now id = .error .DuplicateActiveTask)
    ∧ (hasActiveKey store chat content = false →
        createTask store chat content now id =
            .ok (store ++ [freshTask chat content now id])
        ∧ activeKeyCount (store ++ [freshTask chat content now id])
            chat content = 1
        ∧ createTask (store ++ [freshTask chat content now id])
            chat content now2 id2 = .error .DuplicateActiveTask) := by
  constructor
  · intro h
    simp [createTask, h]
  · intro h
    have hfresh : activeKey chat content (freshTask chat content now id) = true := by
      simp [activeKey, freshTask]
    have hnil : store.filter (activeKey chat content) = [] :=
      List.filter_eq_nil_iff.mpr (by simpa using List.any_eq_false.mp h)
    refine ⟨by simp [createTask, h], ?_, ?_⟩
    · simp [activeKeyCount, List.filter_append, hnil, hfresh]
    · simp [createTask, hasActiveKey, List.any_append, hfresh]

/-- Witness for createTask_duplicate_idempotence on an empty store. -/
theorem createTask_duplicate_idempotence_witness :
    createTask [] 42 ['o'] 3 7 = .ok [freshTask 42 ['o'] 3 7]
    ∧ activeKeyCount [freshTask 42 ['o'] 3 7] 42 ['o'] = 1
    ∧ createTask [freshTask 42 ['o'] 3 7] 42 ['o'] 4 8 =
        .error StoreError.DuplicateActiveTask := by
  have h := (createTask_duplicate_idempotence [] 42 ['o'] 3 7 4 8).2 (by decide)
  exact ⟨h.1, h.2.1, h.2.2⟩

/-- C9: when the decoded content of an answer token has no matching non-DONE
task for the chat, the quiz dialog replies with the generic error message and
the store is returned unchanged. -/
theorem task_not_found_no_state_change (cfg : SRConfig) (now : Nat)
    (store : Store) (chat : Int) (data : List Char)
    (h : find_task store chat (decode_callback_data data) = none) :
    handle_quiz_dialog cfg now store chat data = (store, some .errorMessage) := by
  simp [handle_quiz_dialog, h]

/-- Witness for task_not_found_no_state_change on an empty store. -/
theorem task_not_found_no_state_change_witness :
    handle_quiz_dialog ⟨5, 2, 10⟩ 100 [] 42 ['1', '|', 'o'] =
      ([], some Reply.errorMessage) :=
  task_not_found_no_state_change ⟨5, 2, 10⟩ 100 [] 42 ['1', '|', 'o'] rfl

/-- C10: a callback token whose decoded answer option is none of the five
enumerated tags is dispatched to no handler, so the store is unchanged and no
reply is produced; and every token callback_handler routes to the quiz dialog
(REMEMBER, FORGOT or REMOVE) with a found task takes exactly one of the three
answer branches, so the reply is always defined. -/
theorem unknown_tag_noop_and_reply_total (cfg : SRConfig) (now id : Nat)
    (store : Store) (chat : Int) (data : List Char) :
    (decode_answer_option data = none →
        callback_handler cfg now id store chat data = (store, none))
    ∧ (∀ a task, decode_answer_option data = some a →
        (a = .REMEMBER ∨ a = .FORGOT ∨ a = .REMOVE) →
        find_task store chat (decode_callback_data data) = some task →
        (handle_quiz_dialog cfg now store chat data).2.isSome) := by
  constructor
  · intro h
    simp [callback_handler, h]
  · intro a task ha hquiz hfind
    rcases hquiz with h1 | h1 | h1 <;> subst h1 <;>
      simp [handle_quiz_dialog, ha, hfind]

/-- Witness for unknown_tag_noop_and_reply_total: an unknown tag token leaves
the store untouched with no reply, and a REMEMBER answer on a found task
produces a defined reply. -/
theorem unknown_tag_noop_and_reply_total_witness :
    callback_handler ⟨5, 2, 10⟩ 100 9 [freshTask 42 ['o'] 0 7] 42 ['9'] =
        ([freshTask 42 ['o'] 0 7], none)
    ∧ (handle_quiz_dialog ⟨5, 2, 10⟩ 100 [freshTask 42 ['o'] 0 7] 42
        ['1', '|', 'o']).2.isSome := by
  refine ⟨?_, ?_⟩
  · exact (unknown_tag_noop_and_reply_total ⟨5, 2, 10⟩ 100 9
      [freshTask 42 ['o'] 0 7] 42 ['9']).1 rfl
  · exact (unknown_tag_noop_and_reply_total ⟨5, 2, 10⟩ 100 9
      [freshTask 42 ['o'] 0 7] 42 ['1', '|', 'o']).2
      AnswerOption.REMEMBER (freshTask 42 ['o'] 0 7) rfl (Or.inl rfl) (by decide)

/-- C4: a dispatched notification comes only from a task that was ACTIVE, and
its status is already WAITING_ANSWER when the message is produced; and in any
store with distinct ids, a task sitting in WAITING_ANSWER is never selected
by a scheduler tick for another dispatch and is left untouched by the tick,
so only an answer can move it out of that status. -/
theorem one_inflight_question (store : Store) (now : Nat) (task : Task)
    (hwf : (store.map Task.id).Nodup) (hmem : task ∈ store)
    (hw : task.status = .WAITING_ANSWER) :
    (∀ u r n, remind_task_to_user u = (r, some n) →
        u.status = .ACTIVE ∧ r.status = .WAITING_ANSWER)
    ∧ task.id ∉ (tick store now).2
    ∧ task ∈ (tick store now).1 := by
  refine ⟨?_, ?_, ?_⟩
  · intro u r n h
    by_cases hu : u.status = .ACTIVE
    · refine ⟨hu, ?_⟩
      simp [remind_task_to_user, markWaiting, hu] at h
      obtain ⟨h1, -⟩ := h
      rw [← h1]
    · simp [remind_task_to_user, markWaiting, hu] at h
  · intro hid
    simp only [tick, List.mem_map] at hid
    obtain ⟨u, hu, huid⟩ := hid
    have hu2 := List.mem_filter.mp hu
    have hu3 := List.mem_filter.mp hu2.1
    have heq : u = task := List.inj_on_of_nodup_map hwf hu3.1 hmem huid
    have hdue : isDue now u = true := hu3.2
    rw [heq] at hdue
    simp [isDue, hw] at hdue
  · simp only [tick]
    refine List.mem_map.mpr ⟨task, hmem, ?_⟩
    have hnd : isDue now task = false := by simp [isDue, hw]
    simp [hnd]

/-- Witness for one_inflight_question: with one WAITING_ANSWER task and one
due ACTIVE task in the store, a tick dispatches only the latter and leaves
the waiting task exactly as it was. -/
theorem one_inflight_question_witness :
    7 ∉ (tick [set_status (freshTask 42 ['o'] 0 7) .WAITING_ANSWER,
          freshTask 42 ['p'] 0 8] 5).2
    ∧ set_status (freshTask 42 ['o'] 0 7) .WAITING_ANSWER ∈
        (tick [set_status (freshTask 42 ['o'] 0 7) .WAITING_ANSWER,
          freshTask 42 ['p'] 0 8] 5).1 := by
  have h := one_inflight_question
    [set_status (freshTask 42 ['o'] 0 7) .WAITING_ANSWER, freshTask 42 ['p'] 0 8]
    5 (set_status (freshTask 42 ['o'] 0 7) .WAITING_ANSWER)
    (by decide) (by simp) rfl
  exact ⟨h.2.1, h.2.2⟩

/-- C8: a DONE task is excluded from dueTasks and never returned by findTask;
createTask with its key succeeds again once every row with that key is DONE;
and neither a scheduler tick nor any callback ever mutates the DONE row. -/
theorem done_terminal (cfg : SRConfig) (store : Store) (task : Task)
    (now id2 : Nat) (chat : Int) (data : List Char)
    (hwf : (store.map Task.id).Nodup) (hmem : task ∈ store)
    (hd : task.status = .DONE) :
    task ∉ get_active_tasks store now
    ∧ (∀ chat2 content2, find_task store chat2 content2 ≠ some task)
    ∧ ((∀ u ∈ store, u.chat_id = task.chat_id → u.content = task.content →
          u.status = .DONE) →
        createTask store task.chat_id task.content now id2 =
          .ok (store ++ [freshTask task.chat_id task.content now id2]))
    ∧ task ∈ (tick store now).1
    ∧ task ∈ (callback_handler cfg now id2 store chat data).1 := by
  refine ⟨?_, ?_, ?_, ?_, ?_⟩
  · intro h
    have := (List.mem_filter.mp h).2
    simp [isDue, hd] at this
  · intro chat2 content2 h
    exact (find_task_mem store chat2 content2 task h).2 hd
  · intro hall
    have hno : hasActiveKey store task.chat_id task.content = false := by
      refine List.any_eq_false.mpr fun u hu => ?_
      simp only [activeKey, decide_eq_true_eq]
      rintro ⟨e1, e2, e3⟩
      exact e3 (hall u hu e1 e2)
    simp [createTask, hno]
  · simp only [tick]
    refine List.mem_map.mpr ⟨task, hmem, ?_⟩
    have hnd : isDue now task = false := by simp [isDue, hd]
    simp [hnd]
  · cases hdec : decode_answer_option data with
    | none => simpa [callback_handler, hdec] using hmem
    | some a =>
      cases a with
      | ADD_TASK =>
        cases hcr : createTask store chat (decode_callback_data data) now id2 with
        | ok s2 =>
          have hs2 : s2 = store ++
              [freshTask chat (decode_callback_data data) now id2] := by
            unfold createTask at hcr
            split at hcr
            · exact absurd hcr (by simp)
            · exact ((Except.ok.injEq _ _).mp hcr).symm
          simp only [callback_handler, hdec, handle_task_creation_dialog, hcr, hs2]
          exact List.mem_append_left _ hmem
        | error e =>
          simpa [callback_handler, hdec, handle_task_creation_dialog, hcr]
            using hmem
      | CANCEL =>
        simpa [callback_handler, hdec, handle_task_creation_dialog] using hmem
      | REMEMBER =>
        cases hf : find_task store chat (decode_callback_data data) with
        | none =>
          simpa [callback_handler, hdec, handle_quiz_dialog, hf] using hmem
        | some u =>
          have hu := find_task_mem store chat (decode_callback_data data) u hf
          have hneid : task.id ≠ u.id := by
            intro he
            have heq : u = task := List.inj_on_of_nodup_map hwf hu.1 hmem he.symm
            exact hu.2 (by rw [heq]; exact hd)
          simp only [callback_handler, hdec, handle_quiz_dialog, hf]
          exact mem_updateTask store task u.id _ hmem hneid
      | FORGOT =>
        cases hf : find_task store chat (decode_callback_data data) with
        | none =>
          simpa [callback_handler, hdec, handle_quiz_dialog, hf] using hmem
        | some u =>
          have hu := find_task_mem store chat (decode_callback_data data) u hf
          have hneid : task.id ≠ u.id := by
            intro he
            have heq : u = task := List.inj_on_of_nodup_map hwf hu.1 hmem he.symm
            exact hu.2 (by rw [heq]; exact hd)
          simp only [callback_handler, hdec, handle_quiz_dialog, hf]
          exact mem_updateTask store task u.id _ hmem hneid
      | REMOVE =>
        cases hf : find_task store chat (decode_callback_data data) with
        | none =>
          simpa [callback_handler, hdec, handle_quiz_dialog, hf] using hmem
        | some u =>
          have hu := find_task_mem store chat (decode_callback_data data) u hf
          have hneid : task.id ≠ u.id := by
            intro he
            have heq : u = task := List.inj_on_of_nodup_map hwf hu.1 hmem he.symm
            exact hu.2 (by rw [heq]; exact hd)
          simp only [callback_handler, hdec, handle_quiz_dialog, hf]
          exact mem_updateTask store task u.id _ hmem hneid

/-- Witness for done_terminal: a DONE task alongside a fresh ACTIVE one is
skipped by the tick, absent from dueTasks, and untouched by a REMOVE callback
on the other task; createTask with its key succeeds again. -/
theorem done_terminal_witness :
    set_status (freshTask 42 ['o'] 0 7) .DONE ∉
        get_active_tasks [set_status (freshTask 42 ['o'] 0 7) .DONE] 5
    ∧ createTask [set_status (freshTask 42 ['o'] 0 7) .DONE] 42 ['o'] 5 8 =
        .ok [set_status (freshTask 42 ['o'] 0 7) .DONE, freshTask 42 ['o'] 5 8]
    ∧ set_status (freshTask 42 ['o'] 0 7) .DONE ∈
        (tick [set_status (freshTask 42 ['o'] 0 7) .DONE] 5).1 := by
  have h := done_terminal ⟨5, 2, 10⟩ [set_status (freshTask 42 ['o'] 0 7) .DONE]
    (set_status (freshTask 42 ['o'] 0 7) .DONE) 5 8 42 ['3', '|', 'o']
    (by decide) (by simp) rfl
  refine ⟨h.1, ?_, h.2.2.2.1⟩
  have hc := h.2.2.1 (by intro u hu e1 e2; simp at hu; rw [hu]; rfl)
  simpa [set_status, freshTask] using hc

end SRBot
